import Mathlib

/-!
# Verification of the ppcserver connection-management core

A shallow embedding, in Lean 4, of the connection-management core of the
`pom-pom-crafts/ppcserver` Go repository: the process-wide admission counter
(`connector/client_counter.go`), the per-connection client lifecycle
(`connector/client.go`), the websocket transport
(`connector/websocket_transport.go`), the websocket connector
(`connector/websocket_connector.go`) and the component orchestrator
(`server.go`).

Pure functions of the source are translated to Lean functions; the
concurrent parts (the per-connection read/write goroutines of `StartClient`
and concurrent calls to `Client.Close`) are translated to explicit
interleaving state machines whose atomic steps are exactly the
lock-protected or atomic sections of the Go code, driven by an explicit
schedule.  Machine integers (`int32` manipulated through `sync/atomic`) are
modelled as `Int` with explicit wrap-around at 2^31.  Go `error` results
are modelled as `Option GoError`, `none` standing for a `nil` error.
-/

set_option autoImplicit false

namespace Ppcserver

/-- Go `error` values that appear in the modelled code.  `none : Option GoError`
stands for a `nil` Go error. -/
inductive GoError where
  /-- `ErrExceedMaxClients` of `connector/client.go`. -/
  | exceedMaxClients : GoError
  /-- `http.ErrServerClosed`, returned by `ListenAndServe` after `Shutdown`. -/
  | serverClosed : GoError
  /-- `context.DeadlineExceeded`, returned when a timeout context expires. -/
  | deadlineExceeded : GoError
  /-- The read error produced by the websocket library once the underlying
  network connection has been closed. -/
  | connClosed : GoError
  /-- The wrapping performed by `fmt.Errorf("ppcserver: Client.transport.Read()
  error: %w", err)` in `Client.readLoop`. -/
  | readWrap (inner : GoError) : GoError
  /-- Any other error (an opaque code keeps distinct errors distinct). -/
  | other (code : Nat) : GoError
deriving DecidableEq, Repr

/-! ## Admission counter (`connector/client_counter.go`)

```go
var (
    maxClients int32 = math.MaxInt32
    numClients int32
)
func SetMaxClients(v int32)  { atomic.StoreInt32(&maxClients, v) }
func MaxClients() int        { return int(atomic.LoadInt32(&maxClients)) }
func NumClients() int        { return int(atomic.LoadInt32(&numClients)) }
func ExceedMaxClients() bool { return NumClients() >= MaxClients() }
func incrNumClients()        { atomic.AddInt32(&numClients, 1) }
func decrNumClients()        { atomic.AddInt32(&numClients, -1) }
```

The two package-level `int32` variables form the process-wide counter state.
`atomic.AddInt32` wraps around on `int32` overflow, which `wrap32` makes
explicit. -/

/-- `math.MaxInt32`. -/
def int32Max : Int := 2 ^ 31 - 1

/-- `math.MinInt32`. -/
def int32Min : Int := -(2 ^ 31)

/-- Reduction of an integer to the `int32` range, as performed by Go
two's-complement arithmetic on overflow. -/
def wrap32 (n : Int) : Int := (n + 2 ^ 31) % 2 ^ 32 - 2 ^ 31

/-- The process-wide admission state: the package-level variables
`maxClients` and `numClients` of `connector/client_counter.go`. -/
structure CounterState where
  maxClients : Int
  numClients : Int
deriving DecidableEq, Repr

/-- The initial values of the package-level variables: `maxClients` starts at
`math.MaxInt32` and `numClients` at the `int32` zero value. -/
def initialCounterState : CounterState := { maxClients := int32Max, numClients := 0 }

/-- `SetMaxClients(v)`. -/
def SetMaxClients (s : CounterState) (v : Int) : CounterState :=
  { s with maxClients := v }

/-- `MaxClients()`. -/
def MaxClients (s : CounterState) : Int := s.maxClients

/-- `NumClients()`. -/
def NumClients (s : CounterState) : Int := s.numClients

/-- `ExceedMaxClients()`, i.e. `NumClients() >= MaxClients()`. -/
def ExceedMaxClients (s : CounterState) : Bool := NumClients s ≥ MaxClients s

/-- `incrNumClients()`, i.e. `atomic.AddInt32(&numClients, 1)`. -/
def incrNumClients (s : CounterState) : CounterState :=
  { s with numClients := wrap32 (s.numClients + 1) }

/-- `decrNumClients()`, i.e. `atomic.AddInt32(&numClients, -1)`. -/
def decrNumClients (s : CounterState) : CounterState :=
  { s with numClients := wrap32 (s.numClients - 1) }

/-- An integer lies in the `int32` range. -/
def int32InRange (n : Int) : Prop := int32Min ≤ n ∧ n ≤ int32Max

instance (n : Int) : Decidable (int32InRange n) := by
  unfold int32InRange; infer_instance

theorem wrap32_eq_self {n : Int} (h : int32InRange n) : wrap32 n = n := by
  obtain ⟨h1, h2⟩ := h
  unfold int32Min at h1
  unfold int32Max at h2
  unfold wrap32
  omega

theorem wrap32_inRange (n : Int) : int32InRange (wrap32 n) := by
  unfold wrap32 int32InRange int32Min int32Max
  constructor <;> omega

/-- Decrementing after incrementing restores the counter value when it is a
genuine `int32` value. -/
theorem decr_incr_numClients {s : CounterState} (h : int32InRange s.numClients) :
    decrNumClients (incrNumClients s) = s := by
  unfold decrNumClients incrNumClients
  cases s with
  | mk mx nm =>
    simp only [CounterState.mk.injEq, true_and]
    obtain ⟨h1, h2⟩ := h
    simp only at h1 h2
    unfold int32Min at h1
    unfold int32Max at h2
    unfold wrap32
    omega

/-! ## Client state (`connector/client.go`)

```go
const (
    ClientStateConnected ClientState = iota
    ClientStateAuthorized
    ClientStateClosed
)
```

`ClientState` is a `uint8` enumeration; `connected`, `authorized`, `closed`
correspond to the `iota` values 0, 1, 2. -/

/-- The `ClientState` enumeration of `connector/client.go`. -/
inductive ClientState where
  | connected : ClientState
  | authorized : ClientState
  | closed : ClientState
deriving DecidableEq, Repr

/-- The `uint8` code of a `ClientState` (the `iota` value). -/
def ClientState.code : ClientState → Nat
  | .connected => 0
  | .authorized => 1
  | .closed => 2

/-! ### Sequential client operations

`Client.Close` (the `errgroup` revision of `connector/client.go`, lines
250-271) runs, under the mutex `mu`:

```go
c.mu.Lock()
if c.state == ClientStateClosed { c.mu.Unlock(); return nil }
c.state = ClientStateClosed
c.mu.Unlock()
return c.transport.Close()
```

`Client.State` reads `c.state` under the same mutex, and `Client.Write`
(lines 311-316) is

```go
func (c *Client) Write(data []byte) error {
    if err := c.transport.Write(data); err != nil {
        return err
    }
    return nil
}
```

which never reads `c.state` at all.  Because every access to `c.state` is a
single lock-protected section, a concurrent history of these operations is
linearized into a sequence of atomic operations on the state field; the
sequential model below is that linearization. -/

/-- The operations of a `Client` that the code defines, as they act on the
`state` field.  No operation of the source ever assigns
`ClientStateAuthorized` (the auth handshake is an unimplemented TODO), so
there is no transition-to-`authorized` operation to model. -/
inductive ClientOp where
  /-- `Client.Close()`. -/
  | close : ClientOp
  /-- `Client.Write(data)` (does not touch `state`). -/
  | write : ClientOp
  /-- `Client.State()` (reads `state`, does not change it). -/
  | stateRead : ClientOp
deriving DecidableEq, Repr

/-- The effect of one client operation on the `state` field, exactly as the
lock-protected sections of `connector/client.go` write it. -/
def clientApplyOp (s : ClientState) : ClientOp → ClientState
  | .close => if s = .closed then s else .closed
  | .write => s
  | .stateRead => s

/-- The state field after a sequence of client operations. -/
def clientApplyOps (s : ClientState) (ops : List ClientOp) : ClientState :=
  ops.foldl clientApplyOp s

/-- The sequence of values taken by the `state` field along a run: the value
before each operation, and the final value. -/
def stateTrace (s : ClientState) : List ClientOp → List ClientState
  | [] => [s]
  | op :: rest => s :: stateTrace (clientApplyOp s op) rest

/-- Collapse of consecutive repeats: the distinct observed states, in order. -/
def squashConsec : List ClientState → List ClientState
  | [] => []
  | [a] => [a]
  | a :: b :: rest =>
      if a = b then squashConsec (b :: rest) else a :: squashConsec (b :: rest)

/-- The observed state sequence of a run starting at `s`. -/
def observedSeq (s : ClientState) (ops : List ClientOp) : List ClientState :=
  squashConsec (stateTrace s ops)

/-- A sequential client: the `state` field together with an instrumentation
counter recording how many times `transport.Write` has been invoked. -/
structure SeqClient where
  state : ClientState
  transportWriteCalls : Nat
deriving DecidableEq, Repr

/-- `Client.Write(data)` of the `errgroup` revision (`connector/client.go`
lines 311-316): it invokes `c.transport.Write(data)` unconditionally (the
`state` field is never consulted) and returns the transport's error, `nil`
when the transport write succeeded.  `res` is the underlying transport
write's result. -/
def clientWrite (c : SeqClient) (data : List Nat) (res : Option GoError) :
    SeqClient × Option GoError :=
  let _ := data
  ({ c with transportWriteCalls := c.transportWriteCalls + 1 }, res)

/-! ## Websocket transport (`connector/websocket_transport.go`)

The transport revision cited by the specification stores an encoding tag and
a closed flag:

```go
type websocketTransport struct {
    conn     *websocket.Conn
    opts     *websocketTransportOptions   // opts.encodingType
    mu       sync.RWMutex
    isClosed bool
}
```

`Write` picks the websocket frame type from the encoding tag:

```go
messageType := websocket.TextMessage
if t.opts.encodingType == EncodingTypeProtobuf {
    messageType = websocket.BinaryMessage
}
...
if err := t.conn.WriteMessage(messageType, data); err != nil { return err }
return nil
```

and `Close` (lines 139-151) only flips the flag under the lock:

```go
t.mu.Lock()
if t.isClosed { t.mu.Unlock(); return nil }
t.isClosed = true
t.mu.Unlock()
return nil
```
-/

/-- `EncodingType` is a Go string type. -/
abbrev EncodingType := String

/-- `EncodingTypeJSON`. -/
def EncodingTypeJSON : EncodingType := "json"

/-- `EncodingTypeProtobuf`. -/
def EncodingTypeProtobuf : EncodingType := "protobuf"

/-- `websocket.TextMessage` of the gorilla websocket library. -/
def TextMessage : Nat := 1

/-- `websocket.BinaryMessage` of the gorilla websocket library. -/
def BinaryMessage : Nat := 2

/-- The `websocketTransport` struct: the encoding tag fixed by
`newWebsocketTransport` at connection-accept time, the `isClosed` flag, and
the frames so far handed to `conn.WriteMessage` (each a frame type paired
with the payload). -/
structure WebsocketTransport where
  encoding : EncodingType
  isClosed : Bool
  sentFrames : List (Nat × List Nat)
deriving DecidableEq, Repr

/-- `newWebsocketTransport(conn, opts)`: the encoding tag is set once, at
accept time; the flag starts false and no frame has been written. -/
def newWebsocketTransport (encoding : EncodingType) : WebsocketTransport :=
  { encoding := encoding, isClosed := false, sentFrames := [] }

/-- The frame type `websocketTransport.Write` selects:
`websocket.TextMessage` unless the connection is tagged
`EncodingTypeProtobuf`, in which case `websocket.BinaryMessage`. -/
def websocketFrameType (t : WebsocketTransport) : Nat :=
  if t.encoding = EncodingTypeProtobuf then BinaryMessage else TextMessage

/-- `websocketTransport.Write(data)`: the frame is handed to
`conn.WriteMessage` with the selected frame type; `connErr` is the
underlying connection's response, which the method returns unchanged. -/
def websocketTransportWrite (t : WebsocketTransport) (data : List Nat)
    (connErr : Option GoError) : WebsocketTransport × Option GoError :=
  ({ t with sentFrames := t.sentFrames ++ [(websocketFrameType t, data)] }, connErr)

/-- `websocketTransport.Read()`: `conn.ReadMessage()` leaves the transport
struct unchanged; `connResult` is the message / error pair the connection
produces. -/
def websocketTransportRead (t : WebsocketTransport)
    (connResult : List Nat × Option GoError) :
    WebsocketTransport × (List Nat × Option GoError) :=
  (t, connResult)

/-- `websocketTransport.Close()` (lines 139-151): flips `isClosed` under the
lock and returns `nil`; a repeat call returns `nil` without any effect.
Note the cited revision never calls `conn.Close()` here. -/
def websocketTransportClose (t : WebsocketTransport) :
    WebsocketTransport × Option GoError :=
  if t.isClosed then (t, none) else ({ t with isClosed := true }, none)

/-! ## Concurrent `Client.Close` (`connector/client.go` lines 250-271)

N callers run `Client.Close` concurrently on one `Client` whose transport is
the `websocketTransport` above.  Each call consists of two atomic sections:

* the `mu`-protected check-and-set of `state` (skip and return `nil` when
  already `ClientStateClosed`, otherwise set it), and
* when the caller performed the transition, the call to `transport.Close()`
  (itself one lock-protected section of `websocketTransport.Close`).

All callers execute the same code, so an interleaving is captured by how
many callers sit in each phase; a schedule chooses which phase advances. -/

/-- Global state of N concurrent `Client.Close` calls: the `Client`'s
`state` field, its `websocketTransport`, a count of the invocations of
`transport.Close()` made by `Client.Close`, and the number of callers in
each phase.  `doneNil` / `doneErr` count completed calls whose returned
error was `nil` / non-`nil`. -/
structure CloseRun where
  clientState : ClientState
  transport : WebsocketTransport
  transportCloseCalls : Nat
  pending : Nat
  closing : Nat
  doneNil : Nat
  doneErr : Nat
deriving DecidableEq, Repr

/-- A schedule step for the concurrent-close machine: advance one caller
through its `mu`-protected section, or advance one caller through its
`transport.Close()` call. -/
inductive CloseAction where
  | lockStep : CloseAction
  | transportStep : CloseAction
deriving DecidableEq, Repr

/-- One atomic step of the concurrent-close machine. -/
def closeStep (s : CloseRun) : CloseAction → CloseRun
  | .lockStep =>
      if s.pending = 0 then s
      else if s.clientState = .closed then
        -- `if c.state == ClientStateClosed { c.mu.Unlock(); return nil }`
        { s with pending := s.pending - 1, doneNil := s.doneNil + 1 }
      else
        -- `c.state = ClientStateClosed; c.mu.Unlock()`
        { s with clientState := .closed, pending := s.pending - 1,
                 closing := s.closing + 1 }
  | .transportStep =>
      if s.closing = 0 then s
      else
        -- `return c.transport.Close()`
        let r := websocketTransportClose s.transport
        { s with transport := r.1, transportCloseCalls := s.transportCloseCalls + 1,
                 closing := s.closing - 1,
                 doneNil := if r.2 = none then s.doneNil + 1 else s.doneNil,
                 doneErr := if r.2 = none then s.doneErr else s.doneErr + 1 }

/-- N concurrent `Client.Close` calls on a live client (state
`ClientStateConnected`, transport open). -/
def initCloseRun (enc : EncodingType) (n : Nat) : CloseRun :=
  { clientState := .connected, transport := newWebsocketTransport enc,
    transportCloseCalls := 0, pending := n, closing := 0, doneNil := 0, doneErr := 0 }

/-- Run the concurrent-close machine under a schedule. -/
def runCloseMachine (s : CloseRun) (sched : List CloseAction) : CloseRun :=
  sched.foldl closeStep s

/-- All N calls have returned. -/
def closeRunDone (s : CloseRun) : Prop := s.pending = 0 ∧ s.closing = 0

instance (s : CloseRun) : Decidable (closeRunDone s) := by
  unfold closeRunDone; infer_instance

/-- Invariant of the concurrent-close machine: before the transition the
client is live and nothing has touched the transport; after it exactly one
caller carries the duty to close the transport, everyone returns `nil`, and
the flag tracks the one effective transport close. -/
def closeRunInv (n : Nat) (s : CloseRun) : Prop :=
  s.pending + s.closing + s.doneNil + s.doneErr = n ∧
  s.doneErr = 0 ∧
  s.clientState ≠ .authorized ∧
  (s.clientState = .connected →
    s.closing = 0 ∧ s.transportCloseCalls = 0 ∧ s.transport.isClosed = false ∧
    s.doneNil = 0 ∧ s.doneErr = 0) ∧
  (s.clientState = .closed →
    s.closing + s.transportCloseCalls = 1 ∧
    (s.transport.isClosed = true ↔ s.transportCloseCalls = 1))

theorem closeStep_inv {n : Nat} {s : CloseRun} (a : CloseAction)
    (h : closeRunInv n s) : closeRunInv n (closeStep s a) := by
  obtain ⟨cs, ⟨enc, icl, fr⟩, tc, p, cl, dn, de⟩ := s
  unfold closeRunInv at h ⊢
  cases a <;> cases cs <;> cases icl <;>
    by_cases hp : p = 0 <;> by_cases hcl : cl = 0 <;>
      simp_all [closeStep, websocketTransportClose] <;> omega

theorem runCloseMachine_inv {n : Nat} {s : CloseRun} (sched : List CloseAction)
    (h : closeRunInv n s) : closeRunInv n (runCloseMachine s sched) := by
  induction sched generalizing s with
  | nil => exact h
  | cons a rest ih => exact ih (closeStep_inv a h)

theorem initCloseRun_inv (enc : EncodingType) (n : Nat) :
    closeRunInv n (initCloseRun enc n) := by
  unfold closeRunInv initCloseRun newWebsocketTransport
  simp

/-! ## `StartClient` (`connector/client.go`, errgroup revision, lines 197-247)

```go
func StartClient(ctx context.Context, transport Transport) error {
    if ExceedMaxClients() {
        if err := transport.Close(); err != nil {
            log.Println(...)
            return nil
        }
        return ErrExceedMaxClients
    }
    incrNumClients()
    defer decrNumClients()

    c := &Client{ transport: transport, state: ClientStateConnected, ... }

    g, ctx := errgroup.WithContext(ctx)
    g.Go(func() error { return c.writeLoop(ctx) })   // writeLoop returns nil
    g.Go(func() error { return c.readLoop(ctx) })    // loops until Read errors

    <-ctx.Done()
    _ = c.Close()

    return g.Wait()
}
```

`readLoop` loops on `transport.Read()` and returns
`fmt.Errorf("...: %w", err)` — always non-nil — on the first read error;
`writeLoop` returns `nil` immediately.  The `errgroup` context's `Done`
channel closes when the parent context is cancelled or when the first
goroutine returns a non-nil error, and `g.Wait()` returns the first non-nil
error returned by the goroutines.

The machine below interleaves the three strands (the read goroutine, the
write goroutine, and the body of `StartClient` itself) plus an external
parent-context cancellation.  The transport here is conn-backed: closing it
makes the blocked `transport.Read()` fail, which is exactly the mechanism
the code comments on (`"Actively close the connection when ctx.Done channel
is closed to force readLoop exits"`).  `readScript` supplies the outcomes
the peer produces on successive reads while the connection is open: `none`
is a received message, `some e` a read failure.  Every effective step gets a
fresh tick, so step timestamps record the order of events. -/

/-- Where the body of `StartClient` stands: blocked on `<-ctx.Done()`,
blocked on `g.Wait()` (after calling `c.Close()`), or returned with the
value of `g.Wait()`. -/
inductive MainPhase where
  | waitCtx : MainPhase
  | waitJoin : MainPhase
  | returned (r : Option GoError) : MainPhase
deriving DecidableEq, Repr

/-- The interleaving state of one admitted `StartClient` call. -/
structure RunState where
  /-- The process-wide counter (`incrNumClients` has already run at entry). -/
  counter : CounterState
  /-- The `Client.state` field. -/
  clientState : ClientState
  /-- Invocations of `transport.Close()` (via `c.Close()`). -/
  transportCloseCalls : Nat
  /-- Invocations of `incrNumClients` by this call. -/
  incrCalls : Nat
  /-- Invocations of `decrNumClients` by this call. -/
  decrCalls : Nat
  /-- Invocations of `c.Close()` by the `StartClient` body. -/
  closeCalls : Nat
  /-- The parent context has been cancelled. -/
  parentCancelled : Bool
  /-- The first non-nil error recorded by the errgroup. -/
  groupErr : Option GoError
  /-- The errgroup's own `cancel` has run (a goroutine returned non-nil). -/
  groupCancelled : Bool
  /-- The write goroutine (`writeLoop`) has returned (always `nil`). -/
  writeExited : Bool
  /-- The read goroutine's result once it has returned (always non-nil). -/
  readExited : Option GoError
  /-- The `StartClient` body. -/
  mainPhase : MainPhase
  /-- Pending peer-side read outcomes while the connection is open. -/
  readScript : List (Option GoError)
  /-- The logical clock; each effective step advances it.  Event timestamps
  below are ticks (always ≥ 1); the value 0 means "has not happened yet". -/
  tick : Nat
  /-- Tick at which `writeLoop` returned. -/
  writeExitAt : Nat
  /-- Tick at which `readLoop` returned. -/
  readExitAt : Nat
  /-- Tick at which the body invoked `c.Close()`. -/
  closeAt : Nat
  /-- Tick at which the errgroup context's `Done` channel closed. -/
  ctxDoneAt : Nat
  /-- Tick at which the deferred `decrNumClients` ran. -/
  decrAt : Nat
  /-- Tick at which `StartClient` returned. -/
  retAt : Nat
deriving DecidableEq, Repr

/-- The errgroup context's `Done` channel is closed: its own cancel ran, or
the parent context was cancelled. -/
def ctxDone (s : RunState) : Bool := s.groupCancelled || s.parentCancelled

/-- A schedule step: cancel the parent context, advance the write goroutine,
advance the read goroutine, or advance the `StartClient` body. -/
inductive RunAction where
  | cancelParent : RunAction
  | writeStep : RunAction
  | readStep : RunAction
  | mainStep : RunAction
deriving DecidableEq, Repr

/-- The read goroutine returns: `readLoop` wraps the read error with
`fmt.Errorf` and returns it; the errgroup records the first non-nil error
and cancels its context. -/
def readExitStep (s : RunState) (e : GoError) : RunState :=
  let w := GoError.readWrap e
  let t := s.tick + 1
  { s with readExited := some w, tick := t, readExitAt := t,
           groupErr := if s.groupErr.isSome then s.groupErr else some w,
           groupCancelled := true,
           ctxDoneAt := if (ctxDone s) then s.ctxDoneAt else t }

/-- The body observes `<-ctx.Done()` and runs `_ = c.Close()`: the
`mu`-protected transition of `state` and, when this call performed it, the
invocation of `transport.Close()`. -/
def mainCloseStep (s : RunState) : RunState :=
  let t := s.tick + 1
  if s.clientState = .closed then
    { s with mainPhase := .waitJoin, closeCalls := s.closeCalls + 1,
             tick := t, closeAt := t }
  else
    { s with clientState := .closed,
             transportCloseCalls := s.transportCloseCalls + 1,
             mainPhase := .waitJoin, closeCalls := s.closeCalls + 1,
             tick := t, closeAt := t }

/-- `g.Wait()` unblocks (both goroutines have returned) and yields the first
recorded non-nil error; the deferred `decrNumClients()` runs, and then
`StartClient` returns. -/
def mainJoinStep (s : RunState) : RunState :=
  let t := s.tick + 1
  { s with counter := decrNumClients s.counter, decrCalls := s.decrCalls + 1,
           mainPhase := .returned s.groupErr,
           tick := t + 1, decrAt := t, retAt := t + 1 }

/-- One atomic step of the `StartClient` machine. -/
def stepRun (s : RunState) : RunAction → RunState
  | .cancelParent =>
      if s.parentCancelled then s
      else
        let t := s.tick + 1
        { s with parentCancelled := true, tick := t,
                 ctxDoneAt := if (ctxDone s) then s.ctxDoneAt else t }
  | .writeStep =>
      if s.writeExited then s
      else
        let t := s.tick + 1
        { s with writeExited := true, tick := t, writeExitAt := t }
  | .readStep =>
      if s.readExited.isSome then s
      else if s.transportCloseCalls ≠ 0 then
        -- the connection has been closed: the blocked `Read` fails
        readExitStep s .connClosed
      else
        match s.readScript with
        | [] => s  -- `Read` stays blocked: the peer has produced nothing
        | none :: rest => { s with readScript := rest }  -- a message; loop on
        | some e :: rest => readExitStep { s with readScript := rest } e
  | .mainStep =>
      match s.mainPhase with
      | .waitCtx => if ctxDone s then mainCloseStep s else s
      | .waitJoin =>
          if s.writeExited && s.readExited.isSome then mainJoinStep s else s
      | .returned _ => s

/-- The machine state right after admission: the counter has been
incremented, the `Client` is constructed in `ClientStateConnected`, both
goroutines are launched, and the body blocks on `<-ctx.Done()`. -/
def initRun (cnt : CounterState) (script : List (Option GoError)) : RunState :=
  { counter := incrNumClients cnt, clientState := .connected,
    transportCloseCalls := 0, incrCalls := 1, decrCalls := 0, closeCalls := 0,
    parentCancelled := false, groupErr := none, groupCancelled := false,
    writeExited := false, readExited := none, mainPhase := .waitCtx,
    readScript := script, tick := 0,
    writeExitAt := 0, readExitAt := 0, closeAt := 0,
    ctxDoneAt := 0, decrAt := 0, retAt := 0 }

/-- Run the admitted-`StartClient` machine under a schedule. -/
def runClient (cnt : CounterState) (script : List (Option GoError))
    (sched : List RunAction) : RunState :=
  sched.foldl stepRun (initRun cnt script)

/-- The observable outcome of one `StartClient` call. -/
structure StartOutcome where
  /-- The returned Go error (`none` is `nil`). -/
  result : Option GoError
  /-- The process-wide counter at return. -/
  counter : CounterState
  /-- Whether a `Client` value was constructed. -/
  clientConstructed : Bool
  /-- Invocations of `transport.Close()`. -/
  transportCloseCalls : Nat
  /-- Invocations of `incrNumClients`. -/
  incrCalls : Nat
  /-- Invocations of `decrNumClients`. -/
  decrCalls : Nat
deriving DecidableEq, Repr

/-- `StartClient(ctx, transport)`.  `closeErr` is what `transport.Close()`
would return on the admission-denied path; `script` and `sched` drive the
admitted interleaving.  The result is `none` while an admitted run has not
yet returned under `sched`. -/
def startClient (cnt : CounterState) (closeErr : Option GoError)
    (script : List (Option GoError)) (sched : List RunAction) :
    Option StartOutcome :=
  if ExceedMaxClients cnt then
    -- `if err := transport.Close(); err != nil { log; return nil }`
    -- `return ErrExceedMaxClients`
    some { result := match closeErr with
                     | some _ => none
                     | none => some .exceedMaxClients,
           counter := cnt, clientConstructed := false,
           transportCloseCalls := 1, incrCalls := 0, decrCalls := 0 }
  else
    let fin := runClient cnt script sched
    match fin.mainPhase with
    | .returned r =>
        some { result := r, counter := fin.counter, clientConstructed := true,
               transportCloseCalls := fin.transportCloseCalls,
               incrCalls := fin.incrCalls, decrCalls := fin.decrCalls }
    | _ => none

/-- Whether `StartClient`'s body has returned. -/
def MainPhase.isReturned : MainPhase → Bool
  | .returned _ => true
  | _ => false

/-- Whether a Go error is a `readLoop` wrapping. -/
def GoError.isReadWrap : GoError → Bool
  | .readWrap _ => true
  | _ => false

/-- Invariant of the admitted-`StartClient` machine: clock discipline,
flag/timestamp agreement, the orderings among the lifecycle events, error
bookkeeping (the errgroup's error is the read goroutine's wrapped error)
and counter bookkeeping (one increment at entry, one decrement at return). -/
def runInv (cnt : CounterState) (s : RunState) : Prop :=
  s.writeExitAt ≤ s.tick ∧ s.readExitAt ≤ s.tick ∧ s.closeAt ≤ s.tick ∧
  s.ctxDoneAt ≤ s.tick ∧ s.decrAt ≤ s.tick ∧ s.retAt ≤ s.tick ∧
  (s.writeExited = true ↔ 1 ≤ s.writeExitAt) ∧
  (s.readExited.isSome = true ↔ 1 ≤ s.readExitAt) ∧
  (ctxDone s = true ↔ 1 ≤ s.ctxDoneAt) ∧
  (s.mainPhase = .waitCtx ↔ s.closeAt = 0) ∧
  s.closeCalls = (if s.mainPhase = .waitCtx then 0 else 1) ∧
  (s.mainPhase.isReturned = true ↔ 1 ≤ s.retAt) ∧
  (1 ≤ s.decrAt ↔ 1 ≤ s.retAt) ∧
  (1 ≤ s.closeAt → 1 ≤ s.ctxDoneAt ∧ s.ctxDoneAt < s.closeAt) ∧
  (1 ≤ s.retAt →
    1 ≤ s.writeExitAt ∧ s.writeExitAt < s.retAt ∧
    1 ≤ s.readExitAt ∧ s.readExitAt < s.retAt ∧
    1 ≤ s.closeAt ∧ s.closeAt < s.decrAt ∧ s.decrAt < s.retAt) ∧
  s.groupErr = s.readExited ∧
  s.readExited.all GoError.isReadWrap = true ∧
  (match s.mainPhase with
   | .returned r => r = s.groupErr
   | _ => True) ∧
  s.incrCalls = 1 ∧
  (match s.mainPhase with
   | .returned _ =>
       s.decrCalls = 1 ∧ s.counter = decrNumClients (incrNumClients cnt)
   | _ => s.decrCalls = 0 ∧ s.counter = incrNumClients cnt) ∧
  (s.clientState = .closed ↔ 1 ≤ s.transportCloseCalls) ∧
  s.transportCloseCalls ≤ 1 ∧
  s.clientState ≠ .authorized

set_option maxHeartbeats 2000000 in
theorem stepRun_inv {cnt : CounterState} {s : RunState} (a : RunAction)
    (h : runInv cnt s) : runInv cnt (stepRun s a) := by
  obtain ⟨ctr, cs, tcc, ic, dc, cc, pc, ge, gc, wex, rex, mp, scr, tk,
          wat, rat, cat, xat, dat, tat⟩ := s
  unfold runInv ctxDone at h ⊢
  cases a with
  | cancelParent =>
      cases pc <;> cases gc <;> cases mp <;>
        simp_all [stepRun, ctxDone, MainPhase.isReturned] <;> omega
  | writeStep =>
      cases wex <;> cases mp <;>
        simp_all [stepRun, ctxDone, MainPhase.isReturned] <;> omega
  | readStep =>
      cases rex with
      | some w => cases mp <;> simp_all [stepRun, ctxDone, MainPhase.isReturned] <;> omega
      | none =>
          by_cases htcc : tcc = 0
          · subst htcc
            cases scr with
            | nil => cases mp <;> simp_all [stepRun, ctxDone, MainPhase.isReturned] <;> omega
            | cons o rest =>
                cases o with
                | none =>
                    cases mp <;>
                      simp_all [stepRun, ctxDone, MainPhase.isReturned] <;> omega
                | some e =>
                    cases gc <;> cases pc <;> cases mp <;>
                      simp_all [stepRun, readExitStep, ctxDone,
                                MainPhase.isReturned, GoError.isReadWrap] <;>
                        omega
          · cases gc <;> cases pc <;> cases mp <;>
              simp_all [stepRun, readExitStep, ctxDone,
                        MainPhase.isReturned, GoError.isReadWrap] <;> omega
  | mainStep =>
      cases mp with
      | waitCtx =>
          cases gc <;> cases pc <;> cases cs <;>
            simp_all [stepRun, mainCloseStep, ctxDone, MainPhase.isReturned] <;> omega
      | waitJoin =>
          cases wex <;> cases rex <;>
            simp_all [stepRun, mainJoinStep, ctxDone, MainPhase.isReturned] <;> omega
      | returned r => simp_all [stepRun, ctxDone, MainPhase.isReturned]

theorem foldl_stepRun_inv {cnt : CounterState} {s : RunState}
    (sched : List RunAction) (h : runInv cnt s) :
    runInv cnt (sched.foldl stepRun s) := by
  induction sched generalizing s with
  | nil => exact h
  | cons a rest ih => exact ih (stepRun_inv a h)

theorem initRun_inv (cnt : CounterState) (script : List (Option GoError)) :
    runInv cnt (initRun cnt script) := by
  unfold runInv initRun ctxDone
  simp [MainPhase.isReturned]

theorem runClient_inv (cnt : CounterState) (script : List (Option GoError))
    (sched : List RunAction) : runInv cnt (runClient cnt script sched) :=
  foldl_stepRun_inv sched (initRun_inv cnt script)

/-! ## `WebsocketConnector.Start` (`connector/websocket_connector.go`,
revision with `StartClient`, lines 241-256)

```go
// ListenAndServe will block until the server is closed ...
var err error
if c.opts.TLSCertFile != "" || c.opts.TLSKeyFile != "" {
    err = c.opts.Server.ListenAndServeTLS(...)
} else {
    err = c.opts.Server.ListenAndServe()
}
// ErrServerClosed returns on calling http.Server.Shutdown() and does not
// mean ListenAndServe() fails, so we return a nil error; for the other
// errors we return as is.
if err == http.ErrServerClosed {
    return nil
}
return err
```

`ListenAndServe` blocks until the listener is closed and always returns a
non-nil error; it returns `http.ErrServerClosed` exactly when the server
was closed intentionally via `http.Server.Shutdown` (which
`WebsocketConnector.Shutdown` invokes). -/

/-- The observable behaviour of one `WebsocketConnector.Start(ctx)` call:
when it returns (the tick at which the underlying listener closed, since
`ListenAndServe` blocks until then) and the error it returns. -/
structure ConnectorStartRun where
  returnsAt : Nat
  result : Option GoError
deriving DecidableEq, Repr

/-- The error `ListenAndServe` reports once the listener has been closed by
`http.Server.Shutdown` — the intentional, server-closed condition. -/
def listenerErrAfterShutdown : GoError := .serverClosed

/-- `WebsocketConnector.Start(ctx)`: blocks until the listener closes (at
`listenerClosedAt`, when `ListenAndServe` returns `serveErr`), then maps
`http.ErrServerClosed` to `nil` and returns every other error as is. -/
def websocketConnectorStart (listenerClosedAt : Nat) (serveErr : GoError) :
    ConnectorStartRun :=
  { returnsAt := listenerClosedAt,
    result := if serveErr = GoError.serverClosed then none else some serveErr }

/-! ## Component orchestrator (`server.go`, revision with shutdown
goroutines, lines 101-136) and `WebsocketConnector.Shutdown` (the revision
of `src/unnamed/part_001`, lines 73-80)

```go
g, ctx := errgroup.WithContext(ctx)
for _, c := range s.components {
    g.Go(func() error { return c.Start(ctx) })
    g.Go(func() error {
        // Component.Shutdown() will not be invoked until ctx.Done is closed.
        <-ctx.Done()
        return c.Shutdown()
    })
}
```

```go
func (s *WebsocketConnector) Shutdown() error {
    timeoutCtx, cancel := context.WithTimeout(context.Background(), s.opts.ShutdownTimeout)
    defer cancel()
    return s.server.Shutdown(timeoutCtx)
}
```

Each registered component's shutdown goroutine blocks on `<-ctx.Done()`
and only then calls `Shutdown`, which derives a *fresh* timeout context
from `context.Background()` — its deadline is the invocation time plus the
component's own `opts.ShutdownTimeout`.  `http.Server.Shutdown(timeoutCtx)`
returns when the graceful shutdown completes or when `timeoutCtx` expires
(with `context.DeadlineExceeded`), whichever is first.  Times are modelled
as naturals; a component is characterized by its configured timeout and by
how long its graceful shutdown would need. -/

/-- A registered Component, as instantiated by this repository
(a `WebsocketConnector`): its own `opts.ShutdownTimeout` and the time its
`http.Server.Shutdown` would need to drain gracefully. -/
structure ComponentModel where
  shutdownTimeout : Nat
  shutdownWork : Nat
deriving DecidableEq, Repr

/-- The moment the shutdown goroutine of a component invokes
`c.Shutdown()`: only after `<-ctx.Done()` unblocks at `ctxDoneTime`
(`delay` is the scheduling delay of that goroutine). -/
def shutdownInvokeTime (ctxDoneTime delay : Nat) : Nat := ctxDoneTime + delay

/-- The deadline of the fresh `context.WithTimeout(context.Background(),
s.opts.ShutdownTimeout)` created inside `WebsocketConnector.Shutdown` at
`beginTime`. -/
def shutdownDeadline (c : ComponentModel) (beginTime : Nat) : Nat :=
  beginTime + c.shutdownTimeout

/-- When `s.server.Shutdown(timeoutCtx)` returns: at graceful completion,
or at the timeout context's deadline, whichever is first. -/
def shutdownEndTime (c : ComponentModel) (beginTime : Nat) : Nat :=
  beginTime + min c.shutdownWork c.shutdownTimeout

/-- The error `WebsocketConnector.Shutdown` returns: `nil` when the drain
finished within the budget, `context.DeadlineExceeded` otherwise. -/
def shutdownResult (c : ComponentModel) : Option GoError :=
  if c.shutdownWork ≤ c.shutdownTimeout then none else some .deadlineExceeded

/-- How long the shutdown call of the i-th registered component runs, in a
server with component list `comps` (0 when there is no i-th component). -/
def componentShutdownElapsed (comps : List ComponentModel) (i : Nat) : Nat :=
  match comps.get? i with
  | some c => min c.shutdownWork c.shutdownTimeout
  | none => 0

/-! ## Supporting lemmas for the state-machine claims -/

theorem clientApplyOp_closed (op : ClientOp) :
    clientApplyOp .closed op = .closed := by
  cases op <;> rfl

theorem clientApplyOps_closed (ops : List ClientOp) :
    clientApplyOps .closed ops = .closed := by
  induction ops with
  | nil => rfl
  | cons op rest ih =>
      unfold clientApplyOps at ih ⊢
      rw [List.foldl_cons, clientApplyOp_closed]
      exact ih

theorem stateTrace_shape (s : ClientState) (ops : List ClientOp) :
    ∃ tl, stateTrace s ops = s :: tl := by
  cases ops with
  | nil => exact ⟨[], rfl⟩
  | cons op rest => exact ⟨stateTrace (clientApplyOp s op) rest, rfl⟩

theorem squashConsec_cons_self (a : ClientState) (tl : List ClientState) :
    squashConsec (a :: a :: tl) = squashConsec (a :: tl) := by
  cases tl <;> simp [squashConsec]

theorem squashConsec_cons_ne {a b : ClientState} (tl : List ClientState)
    (h : a ≠ b) : squashConsec (a :: b :: tl) = a :: squashConsec (b :: tl) := by
  cases tl <;> simp [squashConsec, h]

theorem observedSeq_closed (ops : List ClientOp) :
    observedSeq .closed ops = [.closed] := by
  induction ops with
  | nil => rfl
  | cons op rest ih =>
      unfold observedSeq at ih ⊢
      simp only [stateTrace, clientApplyOp_closed]
      obtain ⟨tl, htl⟩ := stateTrace_shape ClientState.closed rest
      rw [htl, squashConsec_cons_self, ← htl]
      exact ih

theorem observedSeq_connected (ops : List ClientOp) :
    observedSeq .connected ops = [.connected] ∨
    observedSeq .connected ops = [.connected, .closed] := by
  induction ops with
  | nil => exact Or.inl rfl
  | cons op rest ih =>
      unfold observedSeq at ih ⊢
      cases op with
      | close =>
          have hstep : clientApplyOp ClientState.connected .close = .closed := by
            simp [clientApplyOp]
          simp only [stateTrace, hstep]
          obtain ⟨tl, htl⟩ := stateTrace_shape ClientState.closed rest
          rw [htl, squashConsec_cons_ne _ (by intro habs; cases habs), ← htl]
          right
          have hc := observedSeq_closed rest
          unfold observedSeq at hc
          rw [hc]
      | write =>
          have hstep : clientApplyOp ClientState.connected .write = .connected := rfl
          simp only [stateTrace, hstep]
          obtain ⟨tl, htl⟩ := stateTrace_shape ClientState.connected rest
          rw [htl, squashConsec_cons_self, ← htl]
          exact ih
      | stateRead =>
          have hstep : clientApplyOp ClientState.connected .stateRead = .connected := rfl
          simp only [stateTrace, hstep]
          obtain ⟨tl, htl⟩ := stateTrace_shape ClientState.connected rest
          rw [htl, squashConsec_cons_self, ← htl]
          exact ih

/-! ## The claims -/

/-- C5: for every Client and every sequence of operations (concurrent ones
linearizing to such a sequence under the mutex), the observed state
sequence is one of the four sequences allowed by the specification, the
state starts at Connected, and Closed is terminal and is never left.
(No operation of the source ever assigns `ClientStateAuthorized`, so the
two sequences that pass through Authorized — while allowed — are never
produced, and no transition out of Closed can even be attempted: every
operation leaves Closed in place as a no-op, not an error.) -/
theorem C5_state_monotonicity :
    (∀ ops : List ClientOp,
      observedSeq .connected ops ∈
        ([[ClientState.connected],
          [ClientState.connected, ClientState.authorized],
          [ClientState.connected, ClientState.closed],
          [ClientState.connected, ClientState.authorized, ClientState.closed]] :
          List (List ClientState))) ∧
    (∀ ops : List ClientOp,
      observedSeq .connected ops = [.connected] ∨
      observedSeq .connected ops = [.connected, .closed]) ∧
    (∀ ops : List ClientOp, clientApplyOps .closed ops = .closed) ∧
    (∀ ops : List ClientOp,
      (stateTrace .connected ops).head? = some .connected) := by
  refine ⟨?_, observedSeq_connected, clientApplyOps_closed, ?_⟩
  · intro ops
    rcases observedSeq_connected ops with h | h <;> rw [h] <;> simp
  · intro ops
    obtain ⟨tl, htl⟩ := stateTrace_shape ClientState.connected ops
    rw [htl]
    rfl

/-- C6: the claim says a `Write` on a Closed client never invokes the
transport's write operation.  The code of `Client.Write`
(`connector/client.go` lines 311-316) calls `c.transport.Write(data)`
unconditionally — it never consults the `state` field — so on a Closed
client the transport write *is* invoked (here evaluated at a Closed
client, and shown in general: the increment of the transport-write
counter happens for every state). -/
theorem C6_write_on_closed_invokes_transport :
    (clientWrite { state := .closed, transportWriteCalls := 0 } [0] none).1.transportWriteCalls = 1 ∧
    (clientWrite { state := .closed, transportWriteCalls := 0 } [0] none).2 = none ∧
    (∀ (c : SeqClient) (data : List Nat) (res : Option GoError),
      (clientWrite c data res).1.transportWriteCalls = c.transportWriteCalls + 1 ∧
      (clientWrite c data res).1.state = c.state ∧
      (clientWrite c data res).2 = res) := by
  exact ⟨rfl, rfl, fun c data res => ⟨rfl, rfl, rfl⟩⟩

/-- C7: `WebsocketConnector.Start(ctx)` blocks until the underlying
listener is closed (it returns at the tick the listener closes), returns
nil exactly when `ListenAndServe` reported the intentional
`http.ErrServerClosed` condition raised by `Shutdown`, and returns the
underlying error in every other case. -/
theorem C7_connector_start_result :
    (∀ (t : Nat) (e : GoError),
      (websocketConnectorStart t e).returnsAt = t ∧
      ((websocketConnectorStart t e).result = none ↔ e = .serverClosed) ∧
      (websocketConnectorStart t e).result =
        (if e = .serverClosed then none else some e)) ∧
    (∀ t : Nat, (websocketConnectorStart t listenerErrAfterShutdown).result = none) := by
  constructor
  · intro t e
    refine ⟨rfl, ?_, rfl⟩
    unfold websocketConnectorStart
    by_cases h : e = .serverClosed <;> simp [h]
  · intro t
    rfl

/-- C9: the encoding tag fixed at accept time determines the wire frame
type of every transport write — a protobuf-tagged connection writes
`websocket.BinaryMessage` frames and a json-tagged connection writes
`websocket.TextMessage` frames — and no transport operation (write, read
or close) ever changes the tag. -/
theorem C9_encoding_determines_frame_type :
    (∀ (t : WebsocketTransport) (data : List Nat) (connErr : Option GoError),
      (websocketTransportWrite t data connErr).1.sentFrames =
        t.sentFrames ++ [(websocketFrameType t, data)] ∧
      websocketFrameType t =
        (if t.encoding = EncodingTypeProtobuf then BinaryMessage else TextMessage)) ∧
    (∀ (isCl : Bool) (fr : List (Nat × List Nat)) (data : List Nat)
        (connErr : Option GoError),
      (websocketTransportWrite ⟨EncodingTypeJSON, isCl, fr⟩ data connErr).1.sentFrames =
        fr ++ [(TextMessage, data)]) ∧
    (∀ (isCl : Bool) (fr : List (Nat × List Nat)) (data : List Nat)
        (connErr : Option GoError),
      (websocketTransportWrite ⟨EncodingTypeProtobuf, isCl, fr⟩ data connErr).1.sentFrames =
        fr ++ [(BinaryMessage, data)]) ∧
    (∀ enc : EncodingType, (newWebsocketTransport enc).encoding = enc) ∧
    (∀ (t : WebsocketTransport) (data : List Nat) (connErr : Option GoError),
      (websocketTransportWrite t data connErr).1.encoding = t.encoding) ∧
    (∀ (t : WebsocketTransport) (r : List Nat × Option GoError),
      (websocketTransportRead t r).1.encoding = t.encoding) ∧
    (∀ t : WebsocketTransport, (websocketTransportClose t).1.encoding = t.encoding) := by
  refine ⟨fun t data connErr => ⟨rfl, rfl⟩, ?_, ?_,
          fun enc => rfl, fun t data connErr => rfl, fun t r => rfl, ?_⟩
  · intro isCl fr data connErr
    simp [websocketTransportWrite, websocketFrameType, EncodingTypeJSON,
          EncodingTypeProtobuf]
  · intro isCl fr data connErr
    simp [websocketTransportWrite, websocketFrameType, EncodingTypeProtobuf]
  · intro t
    unfold websocketTransportClose
    by_cases h : t.isClosed <;> simp [h]

/-- C8: `SetMaxClients(n)` sets the process-wide ceiling, which defaults to
`math.MaxInt32` — never reached while fewer than 2^31 - 1 clients are live,
hence unbounded in practice; `ExceedMaxClients()` is exactly
`numClients >= maxClients`; and the live count is adjusted only through the
atomic `incrNumClients` / `decrNumClients` (each one atomic `int32`
addition): within a `StartClient` run the counter is only ever changed by
applying `decrNumClients` (the increment being applied once at admission). -/
theorem C8_admission_counter_contract :
    initialCounterState.maxClients = int32Max ∧
    (∀ n : Int, int32InRange n → n < int32Max →
      ExceedMaxClients { maxClients := int32Max, numClients := n } = false) ∧
    (∀ (s : CounterState) (v : Int),
      (SetMaxClients s v).maxClients = v ∧
      (SetMaxClients s v).numClients = s.numClients) ∧
    (∀ s : CounterState, ExceedMaxClients s = true ↔ NumClients s ≥ MaxClients s) ∧
    (∀ s : CounterState,
      (incrNumClients s).numClients = wrap32 (s.numClients + 1) ∧
      (incrNumClients s).maxClients = s.maxClients) ∧
    (∀ s : CounterState,
      (decrNumClients s).numClients = wrap32 (s.numClients - 1) ∧
      (decrNumClients s).maxClients = s.maxClients) ∧
    (∀ (cnt : CounterState) (script : List (Option GoError)),
      (initRun cnt script).counter = incrNumClients cnt) ∧
    (∀ (s : RunState) (a : RunAction),
      (stepRun s a).counter = s.counter ∨
      (stepRun s a).counter = decrNumClients s.counter) := by
  refine ⟨rfl, ?_, fun s v => ⟨rfl, rfl⟩, ?_,
          fun s => ⟨rfl, rfl⟩, fun s => ⟨rfl, rfl⟩, fun cnt script => rfl, ?_⟩
  · intro n hr hlt
    simp only [ExceedMaxClients, NumClients, MaxClients, decide_eq_false_iff_not]
    simp only [not_le]
    exact hlt
  · intro s
    simp [ExceedMaxClients]
  · intro s a
    cases a with
    | cancelParent => by_cases h : s.parentCancelled <;> simp [stepRun, h]
    | writeStep => by_cases h : s.writeExited <;> simp [stepRun, h]
    | readStep =>
        by_cases h1 : s.readExited.isSome <;> simp [stepRun, h1]
        by_cases h2 : s.transportCloseCalls = 0 <;> simp [h2, readExitStep]
        cases hs : s.readScript with
        | nil => simp
        | cons o rest => cases o <;> simp [readExitStep]
    | mainStep =>
        cases hm : s.mainPhase with
        | waitCtx =>
            by_cases h : ctxDone s <;> simp [stepRun, hm, h, mainCloseStep]
            by_cases h2 : s.clientState = .closed <;> simp [h2]
        | waitJoin =>
            simp only [stepRun, hm, mainJoinStep]
            split <;> simp
        | returned r => simp [stepRun, hm]

/-- C8 witness: the theorem applied at the concrete count 5 under the
default ceiling. -/
theorem C8_admission_counter_contract_witness :
    int32InRange 5 ∧ (5 : Int) < int32Max ∧
    ExceedMaxClients { maxClients := int32Max, numClients := 5 } = false :=
  ⟨by decide, by decide,
   C8_admission_counter_contract.2.1 5 (by decide) (by decide)⟩

/-- What holds of N ≥ 1 concurrent `Client.Close` calls once all have
returned: the state is Closed, `transport.Close()` was invoked exactly
once, the transport flag records exactly one effective close, all N calls
returned nil (the same final error), a caller that finds the state already
Closed returns nil at once without touching the transport, and the first
call transitioned the state to Closed. -/
def closeRunPost (enc : EncodingType) (n : Nat) (sched : List CloseAction) : Prop :=
  (runCloseMachine (initCloseRun enc n) sched).clientState = .closed ∧
  (runCloseMachine (initCloseRun enc n) sched).transportCloseCalls = 1 ∧
  (runCloseMachine (initCloseRun enc n) sched).transport.isClosed = true ∧
  (runCloseMachine (initCloseRun enc n) sched).doneErr = 0 ∧
  (runCloseMachine (initCloseRun enc n) sched).doneNil = n ∧
  (∀ s : CloseRun, s.clientState = .closed → 1 ≤ s.pending →
    closeStep s .lockStep =
      { s with pending := s.pending - 1, doneNil := s.doneNil + 1 }) ∧
  (closeStep (initCloseRun enc n) .lockStep).clientState = .closed

/-- C2: calling `Close` N times (N ≥ 1, concurrently, here on a client
whose transport is the cited `websocketTransport`) transitions the state to
Closed on the first call, causes exactly one invocation of
`transport.Close()` (whose guarded flag-set therefore runs exactly once),
makes every call that arrives after the transition return nil immediately
without touching the transport, and has all N calls return the same final
error — nil, which is what the cited `websocketTransport.Close` always
returns. -/
theorem C2_idempotent_close (enc : EncodingType) (n : Nat)
    (sched : List CloseAction) (hn : 1 ≤ n)
    (hdone : closeRunDone (runCloseMachine (initCloseRun enc n) sched)) :
    closeRunPost enc n sched := by
  have hinv := runCloseMachine_inv (n := n) sched (initCloseRun_inv enc n)
  obtain ⟨htot, herr, hauth, hconn, hclosed⟩ := hinv
  obtain ⟨hp, hc⟩ := hdone
  unfold closeRunPost
  have hcs : (runCloseMachine (initCloseRun enc n) sched).clientState = .closed := by
    cases hs : (runCloseMachine (initCloseRun enc n) sched).clientState
    · exfalso
      obtain ⟨_, _, _, hdn, hde⟩ := hconn hs
      omega
    · exact absurd hs hauth
    · rfl
  obtain ⟨hone, hflag⟩ := hclosed hcs
  have hcalls : (runCloseMachine (initCloseRun enc n) sched).transportCloseCalls = 1 := by
    omega
  refine ⟨hcs, hcalls, hflag.mpr hcalls, herr, by omega, ?_, ?_⟩
  · intro s hs hp1
    have hpz : ¬ s.pending = 0 := by omega
    simp [closeStep, hpz, hs]
  · have hnz : ¬ (n = 0) := by omega
    simp [closeStep, initCloseRun, hnz]

/-- C2 witness: two concurrent closes, the second entering the lock after
the first already transitioned the state. -/
theorem C2_idempotent_close_witness :
    1 ≤ 2 ∧
    closeRunDone (runCloseMachine (initCloseRun EncodingTypeJSON 2)
      [.lockStep, .lockStep, .transportStep]) ∧
    closeRunPost EncodingTypeJSON 2 [.lockStep, .lockStep, .transportStep] :=
  ⟨by decide, by decide,
   C2_idempotent_close EncodingTypeJSON 2 [.lockStep, .lockStep, .transportStep]
     (by decide) (by decide)⟩

/-- C3 counterexample: with the ceiling reached (`SetMaxClients(0)` state)
and a transport whose `Close` itself fails, `StartClient` logs the failure
and returns nil — not `ErrExceedMaxClients` as the claim requires. -/
theorem C3_counterexample_close_failure_returns_nil :
    ExceedMaxClients { maxClients := 0, numClients := 0 } = true ∧
    startClient { maxClients := 0, numClients := 0 } (some (GoError.other 7)) [] [] =
      some { result := none, counter := { maxClients := 0, numClients := 0 },
             clientConstructed := false, transportCloseCalls := 1,
             incrCalls := 0, decrCalls := 0 } ∧
    (none : Option GoError) ≠ some GoError.exceedMaxClients := by
  refine ⟨by decide, by decide, by decide⟩

/-- C3 (amended): when `ExceedMaxClients()` is true at entry, `StartClient`
closes the transport immediately, constructs no Client and never touches
the live count; it returns `ErrExceedMaxClients` when the transport close
succeeds, but when the close itself fails it logs the failure and returns
nil. -/
theorem C3_admission_denial (cnt : CounterState) (closeErr : Option GoError)
    (script : List (Option GoError)) (sched : List RunAction)
    (hex : ExceedMaxClients cnt = true) :
    startClient cnt closeErr script sched =
      some { result := if closeErr = none then some GoError.exceedMaxClients else none,
             counter := cnt, clientConstructed := false,
             transportCloseCalls := 1, incrCalls := 0, decrCalls := 0 } := by
  unfold startClient
  rw [if_pos hex]
  cases closeErr <;> rfl

/-- C3 witness: a denied call whose transport close succeeds. -/
theorem C3_admission_denial_witness :
    ExceedMaxClients { maxClients := 0, numClients := 0 } = true ∧
    startClient { maxClients := 0, numClients := 0 } none [] [] =
      some { result := if (none : Option GoError) = none
                       then some GoError.exceedMaxClients else none,
             counter := { maxClients := 0, numClients := 0 },
             clientConstructed := false, transportCloseCalls := 1,
             incrCalls := 0, decrCalls := 0 } :=
  ⟨by decide, C3_admission_denial { maxClients := 0, numClients := 0 } none [] [] (by decide)⟩

/-- The consequences of the machine invariant once `StartClient` has
returned. -/
theorem runInv_returned {cnt : CounterState} {s : RunState} {r : Option GoError}
    (h : runInv cnt s) (hm : s.mainPhase = .returned r) :
    s.incrCalls = 1 ∧ s.decrCalls = 1 ∧
    s.counter = decrNumClients (incrNumClients cnt) ∧
    r = s.groupErr ∧ s.groupErr = s.readExited ∧
    s.closeCalls = 1 ∧
    1 ≤ s.ctxDoneAt ∧ s.ctxDoneAt < s.closeAt ∧
    1 ≤ s.writeExitAt ∧ s.writeExitAt < s.retAt ∧
    1 ≤ s.readExitAt ∧ s.readExitAt < s.retAt ∧
    s.closeAt < s.decrAt ∧ s.decrAt < s.retAt ∧
    s.readExited.all GoError.isReadWrap = true ∧
    s.readExited.isSome = true := by
  obtain ⟨h1, h2, h3, h4, h5, h6, h7, h8, h9, h10, h11, h12, h13, h14, h15,
          h16, h17, h18, h19, h20, h21, h22, h23⟩ := h
  rw [hm] at h10 h11 h12 h18 h20
  simp only [MainPhase.isReturned, true_iff] at h12
  have htat : 1 ≤ s.retAt := h12
  obtain ⟨hw1, hw2, hr1, hr2, hc1, hc2, hd2⟩ := h15 htat
  obtain ⟨hx1, hx2⟩ := h14 hc1
  have hcc : s.closeCalls = 1 := by
    rw [h11]
    simp
  refine ⟨h19, h20.1, h20.2, h18, h16, hcc, hx1, hx2, hw1, hw2, hr1, hr2,
          hc2, hd2, h17, ?_⟩
  rw [h8]
  exact hr1

/-- C10: every `StartClient` call leaves the process-wide live-client count
unchanged on return — a call denied by admission never touches the counter
(zero increments, zero decrements), and an admitted call increments it
exactly once at entry and decrements it exactly once before returning. -/
theorem C10_counter_balance (cnt : CounterState) (closeErr : Option GoError)
    (script : List (Option GoError)) (sched : List RunAction) (o : StartOutcome)
    (hrange : int32InRange cnt.numClients)
    (h : startClient cnt closeErr script sched = some o) :
    o.counter = cnt ∧
    (o.clientConstructed = false → o.incrCalls = 0 ∧ o.decrCalls = 0) ∧
    (o.clientConstructed = true → o.incrCalls = 1 ∧ o.decrCalls = 1) := by
  unfold startClient at h
  by_cases hex : ExceedMaxClients cnt = true
  · rw [if_pos hex] at h
    cases closeErr <;>
      · injection h with h'
        subst h'
        exact ⟨rfl, fun _ => ⟨rfl, rfl⟩, fun habs => by cases habs⟩
  · rw [if_neg hex] at h
    have hinv := runClient_inv cnt script sched
    cases hm : (runClient cnt script sched).mainPhase with
    | waitCtx =>
        simp only [hm] at h
        exact Option.noConfusion h
    | waitJoin =>
        simp only [hm] at h
        exact Option.noConfusion h
    | returned r =>
        simp only [hm] at h
        injection h with h'
        subst h'
        obtain ⟨hic, hdc, hctr, _⟩ := runInv_returned hinv hm
        refine ⟨?_, ?_, ?_⟩
        · show (runClient cnt script sched).counter = cnt
          rw [hctr]
          exact decr_incr_numClients hrange
        · intro habs
          simp at habs
        · intro _
          exact ⟨hic, hdc⟩

/-- C10 witness: an admitted call whose read path fails after one read. -/
theorem C10_counter_balance_witness :
    int32InRange ({ maxClients := 100, numClients := 0 } : CounterState).numClients ∧
    startClient { maxClients := 100, numClients := 0 } none [some (.other 3)]
        [.writeStep, .readStep, .mainStep, .mainStep] =
      some { result := some (.readWrap (.other 3)),
             counter := { maxClients := 100, numClients := 0 },
             clientConstructed := true, transportCloseCalls := 1,
             incrCalls := 1, decrCalls := 1 } ∧
    ({ result := some (.readWrap (.other 3)),
       counter := { maxClients := 100, numClients := 0 },
       clientConstructed := true, transportCloseCalls := 1,
       incrCalls := 1, decrCalls := 1 } : StartOutcome).counter =
      { maxClients := 100, numClients := 0 } :=
  ⟨by decide, by decide,
   (C10_counter_balance { maxClients := 100, numClients := 0 } none
      [some (.other 3)] [.writeStep, .readStep, .mainStep, .mainStep]
      { result := some (.readWrap (.other 3)),
        counter := { maxClients := 100, numClients := 0 },
        clientConstructed := true, transportCloseCalls := 1,
        incrCalls := 1, decrCalls := 1 }
      (by decide) (by decide)).1⟩

/-- What actually holds of an admitted `StartClient` run that has returned:
`c.Close()` is called exactly once, strictly after the per-connection
context's `Done` channel closed; both the read path and the write path have
exited before the return; the close precedes the decrement, which precedes
the return; and the returned error is the read path's (always non-nil,
`fmt.Errorf`-wrapped) error — the write path only ever contributes nil. -/
def c1Post (fin : RunState) (r : Option GoError) : Prop :=
  fin.closeCalls = 1 ∧
  1 ≤ fin.ctxDoneAt ∧ fin.ctxDoneAt < fin.closeAt ∧
  1 ≤ fin.writeExitAt ∧ fin.writeExitAt < fin.retAt ∧
  1 ≤ fin.readExitAt ∧ fin.readExitAt < fin.retAt ∧
  fin.closeAt < fin.decrAt ∧ fin.decrAt < fin.retAt ∧
  r = fin.readExited ∧
  (∃ e : GoError, r = some (GoError.readWrap e))

/-- C1 counterexample: an admitted run in which the server-side context is
cancelled while the peer is silent.  `StartClient` invokes `c.Close()` at
tick 3 — before the read path exits at tick 4; indeed the close is what
forces the blocked read to fail.  This refutes the claimed ordering
"blocks until both paths have exited, **then** calls Close". -/
theorem C1_counterexample_close_before_read_exit :
    (runClient { maxClients := 100, numClients := 0 } []
        [.cancelParent, .writeStep, .mainStep, .readStep, .mainStep]).mainPhase =
      .returned (some (.readWrap .connClosed)) ∧
    (runClient { maxClients := 100, numClients := 0 } []
        [.cancelParent, .writeStep, .mainStep, .readStep, .mainStep]).closeAt = 3 ∧
    (runClient { maxClients := 100, numClients := 0 } []
        [.cancelParent, .writeStep, .mainStep, .readStep, .mainStep]).readExitAt = 4 ∧
    ¬ (4 : Nat) < 3 := by
  refine ⟨by decide, by decide, by decide, by decide⟩

/-- C1 (amended): for every admitted `StartClient` run that returns,
`Close` is called exactly once — as soon as the per-connection context is
done, which can be *before* the read path has exited (the close being what
unblocks a pending read) — the call blocks until both the read path and the
write path have exited before returning, the live-count decrement happens
after the close and before the return, and the returned error is the first
non-nil error of the two paths, necessarily the read path's error since the
write path always returns nil. -/
theorem C1_join_close_order (cnt : CounterState)
    (script : List (Option GoError)) (sched : List RunAction)
    (r : Option GoError)
    (hm : (runClient cnt script sched).mainPhase = .returned r) :
    c1Post (runClient cnt script sched) r := by
  have hfacts := runInv_returned (runClient_inv cnt script sched) hm
  obtain ⟨_, _, _, hge, hgr, hcc, hx1, hx2, hw1, hw2, hr1, hr2, hcd, hdr,
          hwrap, hsome⟩ := hfacts
  refine ⟨hcc, hx1, hx2, hw1, hw2, hr1, hr2, hcd, hdr, by rw [hge, hgr], ?_⟩
  cases hre : (runClient cnt script sched).readExited with
  | none => rw [hre] at hsome; cases hsome
  | some w =>
      rw [hre] at hwrap
      have hw : GoError.isReadWrap w = true := by simpa using hwrap
      cases w with
      | readWrap e => exact ⟨e, by rw [hge, hgr, hre]⟩
      | exceedMaxClients => cases hw
      | serverClosed => cases hw
      | deadlineExceeded => cases hw
      | connClosed => cases hw
      | other code => cases hw

/-- C1 witness: an admitted run whose read fails on its own (a peer-side
read error), after which the body closes and joins. -/
theorem C1_join_close_order_witness :
    (runClient { maxClients := 100, numClients := 0 } [some (.other 3)]
        [.writeStep, .readStep, .mainStep, .mainStep]).mainPhase =
      .returned (some (.readWrap (.other 3))) ∧
    c1Post (runClient { maxClients := 100, numClients := 0 } [some (.other 3)]
        [.writeStep, .readStep, .mainStep, .mainStep]) (some (.readWrap (.other 3))) :=
  ⟨by decide,
   C1_join_close_order { maxClients := 100, numClients := 0 } [some (.other 3)]
     [.writeStep, .readStep, .mainStep, .mainStep] (some (.readWrap (.other 3)))
     (by decide)⟩

/-- What holds of the i-th registered component's shutdown in the
orchestrator model. -/
def c4Post (comps : List ComponentModel) (ctxDoneTime delay i : Nat)
    (c : ComponentModel) : Prop :=
  ctxDoneTime ≤ shutdownInvokeTime ctxDoneTime delay ∧
  shutdownDeadline c (shutdownInvokeTime ctxDoneTime delay) =
    shutdownInvokeTime ctxDoneTime delay + c.shutdownTimeout ∧
  shutdownEndTime c (shutdownInvokeTime ctxDoneTime delay) ≤
    shutdownDeadline c (shutdownInvokeTime ctxDoneTime delay) ∧
  componentShutdownElapsed comps i = min c.shutdownWork c.shutdownTimeout ∧
  componentShutdownElapsed comps i ≤ c.shutdownTimeout ∧
  (∀ (j : Nat) (c' : ComponentModel), j ≠ i →
    componentShutdownElapsed (comps.set j c') i = componentShutdownElapsed comps i) ∧
  (shutdownResult c = none ↔ c.shutdownWork ≤ c.shutdownTimeout)

/-- C4: the orchestrator's shutdown goroutine for a registered component
only invokes `Shutdown` after the shared context is cancelled
(`<-ctx.Done()` precedes the call), and the invoked `Shutdown` runs under a
new timeout context derived freshly from `context.Background()` at the
invocation — each component's call is bounded by its own
`opts.ShutdownTimeout` budget, and its elapsed time is unchanged when any
*other* registered component is replaced, so one slow component cannot
consume another component's shutdown budget. -/
theorem C4_shutdown_after_cancel_and_independent_budget
    (comps : List ComponentModel) (ctxDoneTime delay i : Nat)
    (c : ComponentModel) (hget : comps.get? i = some c) :
    c4Post comps ctxDoneTime delay i c := by
  unfold c4Post
  refine ⟨Nat.le_add_right _ _, rfl, ?_, ?_, ?_, ?_, ?_⟩
  · unfold shutdownEndTime shutdownDeadline
    have := Nat.min_le_right c.shutdownWork c.shutdownTimeout
    omega
  · unfold componentShutdownElapsed
    rw [hget]
  · unfold componentShutdownElapsed
    rw [hget]
    exact Nat.min_le_right _ _
  · intro j c' hj
    unfold componentShutdownElapsed
    rw [List.get?_set_ne c' comps hj]
  · unfold shutdownResult
    by_cases h : c.shutdownWork ≤ c.shutdownTimeout <;> simp [h]

/-- C4 witness: two registered components, the second with a 7-tick budget
and a 2-tick drain; replacing the first (even by an arbitrarily slow one)
does not change the second's shutdown duration. -/
theorem C4_shutdown_after_cancel_and_independent_budget_witness :
    ([⟨5, 10⟩, ⟨7, 2⟩] : List ComponentModel).get? 1 = some ⟨7, 2⟩ ∧
    c4Post [⟨5, 10⟩, ⟨7, 2⟩] 11 4 1 ⟨7, 2⟩ :=
  ⟨by decide,
   C4_shutdown_after_cancel_and_independent_budget [⟨5, 10⟩, ⟨7, 2⟩] 11 4 1 ⟨7, 2⟩
     (by decide)⟩

end Ppcserver
